import Mathlib

/-!
Shallow embedding of the aggregation core of the ServiceNow-bridge repository:
the `ServiceNowDataService` class (src/src/services/ServiceNowDataService.ts),
the local curated search (src/src/utils/searchUtils.ts), the result-combining
logic of the `useSearch` hook (src/src/hooks/useSearch.tsx and
src/unnamed/part_004), and the login-form validation guard of the
`LoginModal` component (src/src/components/Header.tsx).

Asynchronous `Promise`-based code is embedded as pure functions: the service's
mutable singleton state becomes an explicit `ServiceState` value threaded
through the operations, `Date.now()` becomes an explicit `now : Nat` argument,
and the one genuinely external effect (the GitHub HTTP fetch) becomes an
explicit `GithubOutcome` oracle argument.  JavaScript's stable `Array.sort`
with the 3-way `isPredefined` comparator is embedded as a stable partition
(`sortByPredefined`), justified by `sortByPredefined_sorted_and_perm` below.
-/

namespace SNB

/-- `Source` enum from src/src/types/search.ts. -/
inductive Source where
  | documentation
  | community
  | blog
  | devsite
  | nowcreate
  | github
  | youtube
deriving DecidableEq, Repr

/-- `Category` enum (category kinds) from src/src/types/search.ts. -/
inductive Category where
  | product
  | persona
  | usecase
  | industry
deriving DecidableEq, Repr

/-- `CategoryTag` interface from src/src/types/search.ts. -/
structure CategoryTag where
  type : Category
  name : String
deriving DecidableEq, Repr

/-- `SearchResult` interface from src/src/types/search.ts. -/
structure SearchResult where
  id : String
  title : String
  snippet : String
  url : String
  source : Source
  categories : List CategoryTag
  isPredefined : Bool
deriving DecidableEq, Repr

/-- `needle` matches at the head of `hay` (JavaScript `String.startsWith` on
char lists; building block for `includes`). -/
def leadingMatch : List Char → List Char → Bool
  | [], _ => true
  | _ :: _, [] => false
  | a :: as, b :: bs => a == b && leadingMatch as bs

/-- `hay` contains `needle` as a contiguous run (char-list core of
JavaScript `String.includes`). -/
def hasSub : List Char → List Char → Bool
  | [], needle => needle.isEmpty
  | h :: t, needle => leadingMatch needle (h :: t) || hasSub t needle

/-- JavaScript `s.includes(sub)`. -/
def strIncludes (s sub : String) : Bool :=
  hasSub s.data sub.data

/-- JavaScript `s.toLowerCase()` (ASCII-level model, which covers every
string literal of the program). -/
def toLowerStr (s : String) : String :=
  String.mk (s.data.map Char.toLower)

/-- JavaScript `s.trim()`: strip leading and trailing whitespace. -/
def trimStr (s : String) : String :=
  String.mk (((s.data.dropWhile Char.isWhitespace).reverse.dropWhile
    Char.isWhitespace).reverse)

/-- JavaScript falsiness test for a string (`!s`): true exactly on `""`. -/
def strIsEmpty (s : String) : Bool :=
  s.data.isEmpty

/-- Characters JavaScript `encodeURIComponent` leaves unescaped. -/
def isUnescapedURIChar (c : Char) : Bool :=
  c.isAlphanum || ['-', '_', '.', '!', '~', '*', '\'', '(', ')'].contains c

/-- Uppercase hexadecimal digit for a value below 16. -/
def hexDigit (n : Nat) : Char :=
  if n < 10 then Char.ofNat (48 + n) else Char.ofNat (55 + n)

/-- UTF-8 bytes of one character, as natural numbers. -/
def utf8Bytes (c : Char) : List Nat :=
  let n := c.toNat
  if n < 0x80 then [n]
  else if n < 0x800 then [0xC0 + n / 64, 0x80 + n % 64]
  else if n < 0x10000 then [0xE0 + n / 4096, 0x80 + (n / 64) % 64, 0x80 + n % 64]
  else [0xF0 + n / 262144, 0x80 + (n / 4096) % 64, 0x80 + (n / 64) % 64, 0x80 + n % 64]

/-- JavaScript `encodeURIComponent` (used by the adapters when building
result URLs). -/
def encodeURIComponent (s : String) : String :=
  String.mk <| s.data.flatMap fun c =>
    if isUnescapedURIChar c then [c]
    else (utf8Bytes c).flatMap fun b => ['%', hexDigit (b / 16), hexDigit (b % 16)]

/-- `mockData` from src/src/utils/searchUtils.ts: the static, hand-authored
local result list ("Curated Result Set" in the spec). -/
def mockData : List SearchResult :=
  [ { id := "1"
    , title := "Integrating ServiceNow with Azure AD"
    , snippet := "Step-by-step guide to set up Single Sign-On between ServiceNow and Azure Active Directory. Learn about SAML configuration and user mapping."
    , url := "#"
    , source := .documentation
    , categories :=
        [ ⟨.product, "Platform"⟩, ⟨.persona, "Administrator"⟩, ⟨.usecase, "Identity Integration"⟩ ]
    , isPredefined := true }
  , { id := "2"
    , title := "ServiceNow ITSM Best Practices"
    , snippet := "Optimize your ITSM implementation with proven best practices for incident management, problem management, and change management. Includes KPI recommendations."
    , url := "#"
    , source := .blog
    , categories :=
        [ ⟨.product, "ITSM"⟩, ⟨.persona, "Process Owner"⟩, ⟨.usecase, "Process Optimization"⟩ ]
    , isPredefined := false }
  , { id := "3"
    , title := "Using Flow Designer for HR Service Delivery"
    , snippet := "Learn how to automate HR workflows using Flow Designer. Includes examples for onboarding, time-off requests, and employee transitions."
    , url := "#"
    , source := .community
    , categories :=
        [ ⟨.product, "HRSD"⟩, ⟨.persona, "HR Administrator"⟩, ⟨.usecase, "Workflow Automation"⟩ ]
    , isPredefined := false }
  , { id := "4"
    , title := "ServiceNow Performance Analytics Dashboard Configuration"
    , snippet := "Configure powerful dashboards using Performance Analytics. Learn about widgets, data sources, and visualization best practices."
    , url := "#"
    , source := .documentation
    , categories :=
        [ ⟨.product, "Performance Analytics"⟩, ⟨.persona, "Business Analyst"⟩, ⟨.usecase, "Reporting"⟩ ]
    , isPredefined := true }
  , { id := "5"
    , title := "Implementing CMDB in ServiceNow"
    , snippet := "Best practices for CMDB implementation including data modeling, discovery setup, and maintaining data quality."
    , url := "#"
    , source := .nowcreate
    , categories :=
        [ ⟨.product, "CMDB"⟩, ⟨.persona, "Technical Architect"⟩, ⟨.usecase, "Asset Management"⟩ ]
    , isPredefined := true }
  , { id := "6"
    , title := "ServiceNow API Authentication Methods"
    , snippet := "Learn different methods to authenticate with ServiceNow APIs including Basic Auth, OAuth, and Mid Server. Includes code examples in JavaScript and Python."
    , url := "#"
    , source := .devsite
    , categories :=
        [ ⟨.product, "Platform"⟩, ⟨.persona, "Developer"⟩, ⟨.usecase, "Integration"⟩ ]
    , isPredefined := false }
  , { id := "7"
    , title := "Agent Workspace Customization"
    , snippet := "Customize the Agent Workspace to improve agent productivity. Learn about configuration options, custom widgets, and layouts."
    , url := "#"
    , source := .documentation
    , categories :=
        [ ⟨.product, "ITSM"⟩, ⟨.persona, "System Administrator"⟩, ⟨.usecase, "UI/UX"⟩ ]
    , isPredefined := false }
  , { id := "8"
    , title := "ServiceNow Tokyo Release Highlights"
    , snippet := "Overview of key features and improvements in the Tokyo release. Learn about platform changes, new modules, and deprecated functionality."
    , url := "#"
    , source := .blog
    , categories :=
        [ ⟨.product, "Platform"⟩, ⟨.persona, "All"⟩, ⟨.usecase, "Upgrade Planning"⟩ ]
    , isPredefined := true }
  ]

/-- `getMockResults` from src/src/utils/searchUtils.ts: case-insensitive
substring filter of `mockData` on title or snippet. -/
def getMockResults (query : String) : List SearchResult :=
  let lowerQuery := toLowerStr query
  mockData.filter fun result =>
    strIncludes (toLowerStr result.title) lowerQuery ||
    strIncludes (toLowerStr result.snippet) lowerQuery

/-- `performSearch` from src/src/utils/searchUtils.ts (the simulated API
delay has no observable effect and is dropped). -/
def performSearch (query : String) : List SearchResult :=
  if strIsEmpty (trimStr query) then []
  else getMockResults query

/-- The Product-kind pushes of `extractCategories`
(ServiceNowDataService.ts lines 704-725): each keyword group that matches
the lowercased text contributes its tag, in source order. -/
def productCategories (text : String) : List CategoryTag :=
  (if strIncludes text "itsm" || strIncludes text "incident" ||
      strIncludes text "problem" || strIncludes text "change" then
    [⟨.product, "ITSM"⟩] else []) ++
  (if strIncludes text "hrsd" || strIncludes text "hr service" ||
      strIncludes text "human resources" then
    [⟨.product, "HRSD"⟩] else []) ++
  (if strIncludes text "csm" || strIncludes text "customer service" then
    [⟨.product, "CSM"⟩] else []) ++
  (if strIncludes text "itom" || strIncludes text "operations management" then
    [⟨.product, "ITOM"⟩] else []) ++
  (if strIncludes text "cmdb" || strIncludes text "configuration management" then
    [⟨.product, "CMDB"⟩] else []) ++
  (if strIncludes text "flow" || strIncludes text "integration hub" then
    [⟨.product, "IntegrationHub"⟩] else []) ++
  (if strIncludes text "security" || strIncludes text "iam" ||
      strIncludes text "governance" then
    [⟨.product, "Security"⟩] else [])

/-- The Persona if/else-if chain of `extractCategories` (lines 733-741):
exactly one tag, first matching rule wins. -/
def personaCategory (isDeveloper : Bool) (text : String) : CategoryTag :=
  if isDeveloper || strIncludes text "script" || strIncludes text "code" ||
      strIncludes text "api" || strIncludes text "developer" then
    ⟨.persona, "Developer"⟩
  else if strIncludes text "admin" || strIncludes text "configure" then
    ⟨.persona, "Administrator"⟩
  else if strIncludes text "process" || strIncludes text "workflow" then
    ⟨.persona, "Process Owner"⟩
  else
    ⟨.persona, "All"⟩

/-- The UseCase if/else-if chain of `extractCategories` (lines 744-750):
at most one tag, first matching rule wins, none when nothing matches. -/
def useCaseCategories (text : String) : List CategoryTag :=
  if strIncludes text "integration" || strIncludes text "connect" then
    [⟨.usecase, "Integration"⟩]
  else if strIncludes text "report" || strIncludes text "dashboard" then
    [⟨.usecase, "Reporting"⟩]
  else if strIncludes text "workflow" || strIncludes text "automation" then
    [⟨.usecase, "Workflow Automation"⟩]
  else []

/-- `extractCategories` from src/src/services/ServiceNowDataService.ts
(lines 700-753): keyword-based tagging of a (title, snippet) pair, with an
optional developer hint.  The fallback guard is the source's
`categories.length === 0 || categories.every(c => c.type !== Product)`,
evaluated when `categories` holds exactly the Product pushes. -/
def extractCategories (title snippet : String) (isDeveloper : Bool := false) :
    List CategoryTag :=
  let text := toLowerStr (title ++ " " ++ snippet)
  let productCats := productCategories text
  let categories :=
    if productCats.length == 0 ||
        productCats.all (fun c => !(c.type == Category.product)) then
      productCats ++ [⟨.product, "Platform"⟩]
    else productCats
  categories ++ [personaCategory isDeveloper text] ++ useCaseCategories text

/-- `searchDocumentation` (ServiceNowDataService.ts lines 167-247).
`now` stands for `Date.now()`; the simulated delay is dropped.  The `try`
body performs no throwing operation, so the `catch` arm is unreachable and
the adapter is embedded as its body. -/
def searchDocumentation (query : String) (now : Nat) : List SearchResult :=
  (if strIncludes (toLowerStr query) "itsm" ||
      strIncludes (toLowerStr query) "incident" then
    [ { id := "docs-" ++ toString now ++ "-1"
      , title := "IT Service Management (ITSM) - " ++ query
      , snippet := "Comprehensive documentation about ServiceNow ITSM including incident, problem, and change management. Learn how to configure and use ITSM features to streamline your IT operations."
      , url := "https://docs.servicenow.com/bundle/utah-it-service-management/page/product/incident-management/concept/c_IncidentManagement.html"
      , source := .documentation
      , categories :=
          [ ⟨.product, "ITSM"⟩, ⟨.persona, "Administrator"⟩, ⟨.usecase, "Service Desk"⟩ ]
      , isPredefined := false } ]
  else []) ++
  (if strIncludes (toLowerStr query) "hrsd" ||
      strIncludes (toLowerStr query) "hr" then
    [ { id := "docs-" ++ toString now ++ "-2"
      , title := "HR Service Delivery Guide - " ++ query
      , snippet := "Learn about ServiceNow HR Service Delivery and how it helps organizations streamline HR processes and improve employee experience."
      , url := "https://docs.servicenow.com/bundle/utah-hr-service-delivery/page/product/human-resources/concept/c_HumanResources.html"
      , source := .documentation
      , categories :=
          [ ⟨.product, "HRSD"⟩, ⟨.persona, "HR Manager"⟩, ⟨.usecase, "Employee Service Center"⟩ ]
      , isPredefined := false } ]
  else []) ++
  (if strIncludes (toLowerStr query) "platform" ||
      strIncludes (toLowerStr query) "develop" then
    [ { id := "docs-" ++ toString now ++ "-3"
      , title := "ServiceNow Platform Administration - " ++ query
      , snippet := "Documentation covering the core ServiceNow platform capabilities, configuration, and administration."
      , url := "https://docs.servicenow.com/bundle/utah-platform-administration/page/administer/home-pf.html"
      , source := .documentation
      , categories :=
          [ ⟨.product, "Platform"⟩, ⟨.persona, "Administrator"⟩, ⟨.usecase, "Configuration"⟩ ]
      , isPredefined := false } ]
  else []) ++
  [ { id := "docs-" ++ toString now ++ "-4"
    , title := "Search Results for \"" ++ query ++ "\" - ServiceNow Documentation"
    , snippet := "ServiceNow documentation related to your search for \"" ++ query ++ "\". Our documentation provides comprehensive guides for using ServiceNow products and features."
    , url := "https://docs.servicenow.com/search?q=" ++ encodeURIComponent query
    , source := .documentation
    , categories := [ ⟨.product, "Platform"⟩, ⟨.persona, "All"⟩ ]
    , isPredefined := false } ]

/-- `searchCommunity` (ServiceNowDataService.ts lines 252-296). -/
def searchCommunity (query : String) (now : Nat) : List SearchResult :=
  [ { id := "community-" ++ toString now ++ "-1"
    , title := "How to solve " ++ query ++ " in ServiceNow?"
    , snippet := "I've been trying to implement " ++ query ++ " in our instance but running into some issues. Has anyone successfully done this before? Looking for best practices and any pitfalls to avoid."
    , url := "https://community.servicenow.com/community?id=community_search&q=" ++ encodeURIComponent query
    , source := .community
    , categories :=
        [ ⟨.product, "Platform"⟩, ⟨.persona, "Developer"⟩, ⟨.usecase, "Integration"⟩ ]
    , isPredefined := false } ] ++
  (if strIncludes (toLowerStr query) "script" ||
      strIncludes (toLowerStr query) "code" then
    [ { id := "community-" ++ toString now ++ "-2"
      , title := "Scripting examples for " ++ query ++ " in ServiceNow"
      , snippet := "Community discussion with various script examples and approaches to implement " ++ query ++ " functionality. Includes business rules, client scripts, and UI actions."
      , url := "https://community.servicenow.com/community?id=community_question&sys_id=abc123"
      , source := .community
      , categories := [ ⟨.persona, "Developer"⟩, ⟨.usecase, "Customization"⟩ ]
      , isPredefined := false } ]
  else [])

/-- `searchDeveloperSite` (ServiceNowDataService.ts lines 301-358). -/
def searchDeveloperSite (query : String) (now : Nat) : List SearchResult :=
  (if strIncludes (toLowerStr query) "api" ||
      strIncludes (toLowerStr query) "rest" ||
      strIncludes (toLowerStr query) "integration" then
    [ { id := "dev-" ++ toString now ++ "-1"
      , title := "REST API Developer Guide - " ++ query
      , snippet := "Comprehensive documentation about ServiceNow REST APIs, including authentication, endpoints, and example requests for " ++ query ++ " related operations."
      , url := "https://developer.servicenow.com/dev.do#!/reference/api/utah/rest"
      , source := .devsite
      , categories := [ ⟨.persona, "Developer"⟩, ⟨.usecase, "Integration"⟩ ]
      , isPredefined := false } ]
  else []) ++
  (if strIncludes (toLowerStr query) "script" ||
      strIncludes (toLowerStr query) "code" ||
      strIncludes (toLowerStr query) "develop" then
    [ { id := "dev-" ++ toString now ++ "-2"
      , title := "Scripting in ServiceNow - Developer Guide"
      , snippet := "Learn how to write effective scripts in ServiceNow for business rules, client scripts, UI actions, and more. Includes best practices and example code."
      , url := "https://developer.servicenow.com/dev.do#!/learn/learning-plans/utah/servicenow_application_developer"
      , source := .devsite
      , categories := [ ⟨.persona, "Developer"⟩, ⟨.usecase, "Customization"⟩ ]
      , isPredefined := false } ]
  else []) ++
  [ { id := "dev-" ++ toString now ++ "-3"
    , title := "Developer resources for " ++ query
    , snippet := "ServiceNow developer documentation and guides related to " ++ query ++ ". Find API references, code samples, and development best practices."
    , url := "https://developer.servicenow.com/dev.do#!/search?q=" ++ encodeURIComponent query
    , source := .devsite
    , categories := [ ⟨.persona, "Developer"⟩ ]
    , isPredefined := false } ]

/-- `searchBlog` (ServiceNowDataService.ts lines 363-405). -/
def searchBlog (query : String) (now : Nat) : List SearchResult :=
  [ { id := "blog-" ++ toString now ++ "-1"
    , title := "Best Practices for " ++ query ++ " in ServiceNow"
    , snippet := "Our experts share the latest best practices and strategies for implementing " ++ query ++ " in your ServiceNow instance. Learn how leading organizations are maximizing their ROI."
    , url := "https://blogs.servicenow.com/?s=" ++ encodeURIComponent query
    , source := .blog
    , categories := [ ⟨.product, "Platform"⟩, ⟨.usecase, "Best Practices"⟩ ]
    , isPredefined := false } ] ++
  (if strIncludes (toLowerStr query) "ai" ||
      strIncludes (toLowerStr query) "automation" then
    [ { id := "blog-" ++ toString now ++ "-2"
      , title := "How AI is Transforming ServiceNow Implementations"
      , snippet := "Explore how artificial intelligence and machine learning are enhancing ServiceNow capabilities and driving automation across the platform."
      , url := "https://blogs.servicenow.com/ai-machine-learning"
      , source := .blog
      , categories := [ ⟨.product, "AI Intelligence"⟩, ⟨.usecase, "Innovation"⟩ ]
      , isPredefined := false } ]
  else [])

/-- `searchYouTube` (ServiceNowDataService.ts lines 410-454). -/
def searchYouTube (query : String) (now : Nat) : List SearchResult :=
  [ { id := "youtube-" ++ toString now ++ "-1"
    , title := "ServiceNow Tutorial: " ++ query ++ " Explained"
    , snippet := "In this video, we explain how to implement " ++ query ++ " in ServiceNow with step-by-step instructions and best practices. Perfect for beginners and intermediate users."
    , url := "https://www.youtube.com/results?search_query=servicenow+" ++ encodeURIComponent query
    , source := .youtube
    , categories := [ ⟨.persona, "Administrator"⟩, ⟨.usecase, "Training"⟩ ]
    , isPredefined := false } ] ++
  (if strIncludes (toLowerStr query) "demo" ||
      strIncludes (toLowerStr query) "how to" then
    [ { id := "youtube-" ++ toString now ++ "-2"
      , title := "ServiceNow " ++ query ++ " Demo"
      , snippet := "Watch a detailed demonstration of " ++ query ++ " functionality in ServiceNow. See the feature in action and learn about configuration options."
      , url := "https://www.youtube.com/watch?v=demo-" ++ encodeURIComponent query
      , source := .youtube
      , categories := [ ⟨.persona, "All"⟩, ⟨.usecase, "Demonstration"⟩ ]
      , isPredefined := false } ]
  else [])

/-- One repository item of the GitHub search API response
(`data.items[i]` in `searchGitHub`).  `description` is `Option` because the
JSON field may be `null`/absent; the empty string is also falsy in the
`item.description || ...` fallback. -/
structure GithubItem where
  name : String
  description : Option String
  html_url : String
deriving DecidableEq, Repr

/-- Outcome of the external GitHub HTTP interaction inside `searchGitHub`:
the fetch may reject, return a non-ok status, fail to parse as JSON, or
deliver a list of items. -/
inductive GithubOutcome where
  | netError (msg : String)
  | badStatus (status : Nat)
  | parseError (msg : String)
  | ok (items : List GithubItem)
deriving DecidableEq, Repr

/-- Whether the GitHub interaction delivered items (the only path on which
the `try` body of `searchGitHub` does not throw). -/
def GithubOutcome.isOk : GithubOutcome → Bool
  | .ok _ => true
  | _ => false

/-- The `try` body of `searchGitHub` (ServiceNowDataService.ts lines
459-495) before its `catch`: every network/parse failure surfaces as
`Except.error`, and `!response.ok` raises the thrown message. -/
def searchGitHubBody (gh : GithubOutcome) (now : Nat) :
    Except String (List SearchResult) :=
  match gh with
  | .netError msg => .error msg
  | .badStatus status => .error ("Error fetching GitHub: " ++ toString status)
  | .parseError msg => .error msg
  | .ok items =>
    .ok <| (items.take 5).mapIdx fun index item =>
      { id := "github-" ++ toString now ++ "-" ++ toString index
      , title := item.name
      , snippet :=
          match item.description with
          | some d => if strIsEmpty d then "No description available" else d
          | none => "No description available"
      , url := item.html_url
      , source := .github
      , categories := [ ⟨.persona, "Developer"⟩, ⟨.usecase, "Integration"⟩ ]
      , isPredefined := false }

/-- `searchGitHub` with its `catch`: any error degrades to `[]`. -/
def searchGitHub (gh : GithubOutcome) (now : Nat) : List SearchResult :=
  match searchGitHubBody gh now with
  | .ok results => results
  | .error _ => []

/-- `searchNowCreate` (ServiceNowDataService.ts lines 500-561): gated on the
login flag; unauthenticated callers get a single teaser, authenticated ones
the full simulated fetch.  The authenticated `try` body performs no throwing
operation, so it is embedded directly. -/
def searchNowCreate (userLoggedIn : Bool) (query : String) (now : Nat) :
    List SearchResult :=
  if !userLoggedIn then
    [ { id := "nowcreate-" ++ toString now ++ "-login"
      , title := "Now Create: Implementation guides for " ++ query
      , snippet := "Access step-by-step implementation guides, methodologies, and templates related to \"" ++ query ++ "\" in ServiceNow Now Create. Login required to view full content."
      , url := "https://create.servicenow.com/"
      , source := .nowcreate
      , categories :=
          [ ⟨.persona, "Implementation Specialist"⟩, ⟨.usecase, "Implementation"⟩ ]
      , isPredefined := false } ]
  else
    [ { id := "nowcreate-" ++ toString now ++ "-1"
      , title := "Implementation Guide: " ++ query
      , snippet := "Comprehensive implementation guide for " ++ query ++ " with step-by-step instructions, best practices, and templates. Follow this methodology for a successful implementation."
      , url := "https://create.servicenow.com/create/cms?q=" ++ encodeURIComponent query
      , source := .nowcreate
      , categories :=
          [ ⟨.persona, "Implementation Specialist"⟩, ⟨.usecase, "Implementation"⟩ ]
      , isPredefined := false }
    , { id := "nowcreate-" ++ toString now ++ "-2"
      , title := query ++ " Leading Practices"
      , snippet := "Learn about industry-leading practices for " ++ query ++ " implementation and configuration. Includes governance models, process flows, and KPIs."
      , url := "https://create.servicenow.com/leading-practices"
      , source := .nowcreate
      , categories := [ ⟨.persona, "Architect"⟩, ⟨.usecase, "Best Practices"⟩ ]
      , isPredefined := false } ]

/-- `searchTechNotes` (ServiceNowDataService.ts lines 566-627): the second
login-gated adapter; its results reuse `Source.DevSite` (the source file
notes TechNotes has no source enum of its own). -/
def searchTechNotes (userLoggedIn : Bool) (query : String) (now : Nat) :
    List SearchResult :=
  if !userLoggedIn then
    [ { id := "technotes-" ++ toString now ++ "-login"
      , title := "ServiceNow TechNotes for " ++ query
      , snippet := "Access technical knowledge base articles related to \"" ++ query ++ "\" in ServiceNow. Login required to view full content."
      , url := "https://support.servicenow.com/"
      , source := .devsite
      , categories := [ ⟨.persona, "Administrator"⟩, ⟨.usecase, "Troubleshooting"⟩ ]
      , isPredefined := false } ]
  else
    [ { id := "technotes-" ++ toString now ++ "-1"
      , title := "Troubleshooting: " ++ query ++ " issues in ServiceNow"
      , snippet := "Technical article detailing common issues, error messages, and troubleshooting steps for " ++ query ++ " in ServiceNow."
      , url := "https://support.servicenow.com/kb?id=kb_article_view&sysparm_article=KB1234"
      , source := .devsite
      , categories := [ ⟨.persona, "Administrator"⟩, ⟨.usecase, "Troubleshooting"⟩ ]
      , isPredefined := false }
    , { id := "technotes-" ++ toString now ++ "-2"
      , title := "Advanced Configuration Guide: " ++ query
      , snippet := "Step-by-step technical guide for advanced configuration of " ++ query ++ " functionality. Includes script examples and configuration parameters."
      , url := "https://support.servicenow.com/kb?id=kb_article_view&sysparm_article=KB5678"
      , source := .devsite
      , categories := [ ⟨.persona, "Administrator"⟩, ⟨.usecase, "Configuration"⟩ ]
      , isPredefined := false } ]

/-- One cache slot of the service: a result list plus its creation
timestamp (`{ results, timestamp }` in ServiceNowDataService.ts line 9). -/
structure CacheEntry where
  results : List SearchResult
  timestamp : Nat
deriving DecidableEq, Repr

/-- The mutable singleton state of `ServiceNowDataService`: the cache map,
the login flag and the session token.  The JavaScript `Map` is embedded as
an association list with first-match lookup and prepend-on-set, which has
the same observable `get`/`set`/`clear` behavior. -/
structure ServiceState where
  cache : List (String × CacheEntry)
  userLoggedIn : Bool
  sessionToken : Option String
deriving DecidableEq, Repr

/-- The state built by the private constructor: empty cache, logged out,
no token. -/
def initState : ServiceState :=
  { cache := [], userLoggedIn := false, sessionToken := none }

/-- `cacheDuration` (line 10): 30 minutes in milliseconds. -/
def cacheDuration : Nat := 1000 * 60 * 30

/-- `Map.get` on the embedded cache. -/
def cacheGet : List (String × CacheEntry) → String → Option CacheEntry
  | [], _ => none
  | (k, v) :: rest, key => if k == key then some v else cacheGet rest key

/-- `getCachedResults` (lines 758-764): a cache entry is served only while
`now - timestamp < cacheDuration` (expiry checked lazily at read time). -/
def getCachedResults (s : ServiceState) (key : String) (now : Nat) :
    Option (List SearchResult) :=
  match cacheGet s.cache key with
  | some cached =>
    if now - cached.timestamp < cacheDuration then some cached.results else none
  | none => none

/-- `cacheResults` (lines 769-774): `Map.set` of the entry under the key. -/
def cacheResults (s : ServiceState) (key : String)
    (results : List SearchResult) (now : Nat) : ServiceState :=
  { s with cache := (key, ⟨results, now⟩) :: s.cache }

/-- `setAuth` (lines 93-104): store the flag and token; on logout also drop
the token and clear the whole cache. -/
def setAuth (s : ServiceState) (loggedIn : Bool) (token : Option String) :
    ServiceState :=
  let s1 := { s with userLoggedIn := loggedIn, sessionToken := token }
  if !loggedIn then { s1 with sessionToken := none, cache := [] } else s1

/-- `login` (lines 632-645): the `try` body always succeeds — it
unconditionally authenticates with the fake token and returns `true`; the
`catch` arm (returning `false`) is unreachable since no operation in the
body throws.  The credential strings are accepted unexamined. -/
def login (s : ServiceState) (username password : String) :
    Bool × ServiceState :=
  (true, setAuth s true (some "fake-session-token"))

/-- `logout` (lines 650-652). -/
def logout (s : ServiceState) : ServiceState :=
  setAuth s false none

/-- The cache key computed by `searchAll` (line 122). -/
def cacheKeyOf (query : String) (userLoggedIn : Bool) : String :=
  trimStr (toLowerStr query) ++ "-" ++ (if userLoggedIn then "auth" else "noauth")

/-- The `Promise.all` fan-out array of `searchAll` (lines 133-142), in
source order. -/
def fanOut (gh : GithubOutcome) (userLoggedIn : Bool) (query : String)
    (now : Nat) : List (List SearchResult) :=
  [ searchDocumentation query now
  , searchCommunity query now
  , searchDeveloperSite query now
  , searchBlog query now
  , searchYouTube query now
  , searchGitHub gh now
  , searchNowCreate userLoggedIn query now
  , searchTechNotes userLoggedIn query now ]

/-- The 3-way comparator of the `.sort` call in `searchAll` (lines
145-152): predefined entries first, everything else tied. -/
def predefinedCmp (a b : SearchResult) : Int :=
  if a.isPredefined && !b.isPredefined then -1
  else if !a.isPredefined && b.isPredefined then 1
  else 0

/-- JavaScript `Array.sort` is stable, and a stable sort under
`predefinedCmp` is exactly a stable partition on `isPredefined`
(`sortByPredefined_sorted_and_perm` proves it sorted and a permutation). -/
def sortByPredefined (l : List SearchResult) : List SearchResult :=
  l.filter (fun r => r.isPredefined) ++ l.filter (fun r => !r.isPredefined)

/-- `searchAll` (lines 116-162): empty-query rejection, cache lookup, the
parallel fan-out, flatten, the predefined-first sort, and the cache write.
The outer `try` rethrows only if `Promise.all` rejects, which cannot happen
since every adapter is total, so it is embedded as its body.  Returns the
result list and the successor state. -/
def searchAll (gh : GithubOutcome) (s : ServiceState) (query : String)
    (now : Nat) : List SearchResult × ServiceState :=
  if strIsEmpty (trimStr query) then ([], s)
  else
    let cacheKey := cacheKeyOf query s.userLoggedIn
    match getCachedResults s cacheKey now with
    | some cachedResults => (cachedResults, s)
    | none =>
      let allResults := sortByPredefined (fanOut gh s.userLoggedIn query now).flatten
      (allResults, cacheResults s cacheKey allResults now)

/-- The result-combining step of the `useSearch` hook
(src/src/hooks/useSearch.tsx lines 44-54 and src/unnamed/part_004 lines
54-64): predefined (local curated) results first, then the external ones
whose lowercased title does not collide with any predefined title. -/
def combineResults (predefinedResults externalResults : List SearchResult) :
    List SearchResult :=
  predefinedResults ++
    externalResults.filter fun extResult =>
      !(predefinedResults.any fun preResult =>
        toLowerStr preResult.title == toLowerStr extResult.title)

/-- `handleSubmit` of the `LoginModal` component (src/src/components/
Header.tsx): empty username or password is rejected before the service
`login` is called.  Returns whether `login` was invoked and the resulting
service state. -/
def handleSubmit (s : ServiceState) (username password : String) :
    Bool × ServiceState :=
  if strIsEmpty username || strIsEmpty password then (false, s)
  else (true, (login s username password).2)

/-- Cache well-formedness: no stored result list contains a curated
(`isPredefined`) entry.  This holds for every state the service can reach,
since only `searchAll` writes to the cache and every adapter emits
`isPredefined := false`. -/
def CacheOk (s : ServiceState) : Prop :=
  ∀ kv ∈ s.cache, ∀ r ∈ kv.2.results, r.isPredefined = false

/-! ### Helper lemmas -/

/-- Containment survives prepending onto the haystack. -/
theorem hasSub_append_of_right (xs ys needle : List Char)
    (h : hasSub ys needle = true) : hasSub (xs ++ ys) needle = true := by
  induction xs with
  | nil => simpa using h
  | cons x xs ih =>
    simp only [List.cons_append, hasSub, Bool.or_eq_true]
    exact Or.inr ih

/-- String-level form: a substring of the last chunk is a substring of the
concatenation. -/
theorem strIncludes_append_of_right (a b post sub : String)
    (h : strIncludes post sub = true) :
    strIncludes (a ++ b ++ post) sub = true := by
  unfold strIncludes at h ⊢
  show hasSub ((a.data ++ b.data) ++ post.data) sub.data = true
  exact hasSub_append_of_right _ _ _ h

/-- Every tag pushed by the Product keyword groups has kind Product. -/
theorem productCategories_types (text : String) :
    ∀ c ∈ productCategories text, c.type = Category.product := by
  intro c hc
  unfold productCategories at hc
  simp only [List.mem_append] at hc
  rcases hc with ((((((hc | hc) | hc) | hc) | hc) | hc) | hc) <;>
    (split at hc <;> simp_all)

/-- Every tag pushed by the UseCase chain has kind UseCase. -/
theorem useCaseCategories_types (text : String) :
    ∀ c ∈ useCaseCategories text, c.type = Category.usecase := by
  intro c hc
  unfold useCaseCategories at hc
  split_ifs at hc <;> simp_all

/-- The Persona chain always yields a Persona-kind tag. -/
theorem personaCategory_type (d : Bool) (text : String) :
    (personaCategory d text).type = Category.persona := by
  unfold personaCategory
  split_ifs <;> rfl

/-- The Persona chain, with the chosen name factored out. -/
theorem personaCategory_eq (d : Bool) (text : String) :
    personaCategory d text =
      ⟨Category.persona,
        if d || strIncludes text "script" || strIncludes text "code" ||
            strIncludes text "api" || strIncludes text "developer" then
          "Developer"
        else if strIncludes text "admin" || strIncludes text "configure" then
          "Administrator"
        else if strIncludes text "process" || strIncludes text "workflow" then
          "Process Owner"
        else "All"⟩ := by
  unfold personaCategory
  split_ifs <;> rfl

/-- The fallback guard of `extractCategories` fires exactly when no Product
keyword group matched: with only Product pushes in the list, the
`every(c => c.type !== Product)` disjunct never fires on a non-empty list. -/
theorem fallback_guard_iff (text : String) :
    ((productCategories text).length == 0 ||
      (productCategories text).all
        (fun c => !(c.type == Category.product))) = true ↔
    productCategories text = [] := by
  constructor
  · intro h
    rw [Bool.or_eq_true] at h
    rcases h with h | h
    · exact List.length_eq_zero.mp (by simpa using h)
    · cases hl : productCategories text with
      | nil => rfl
      | cons c rest =>
        have hc : c ∈ productCategories text := by rw [hl]; exact List.mem_cons_self _ _
        have := List.all_eq_true.mp h c hc
        have := productCategories_types text c hc
        simp_all
  · intro h
    rw [h]
    rfl

/-- Unfolded form of `extractCategories`, split on the fallback guard. -/
theorem extractCategories_eq (title snippet : String) (d : Bool) :
    extractCategories title snippet d =
      (let text := toLowerStr (title ++ " " ++ snippet)
       (if productCategories text = [] then
          productCategories text ++ [⟨Category.product, "Platform"⟩]
        else productCategories text) ++
         [personaCategory d text] ++ useCaseCategories text) := by
  unfold extractCategories
  by_cases h : productCategories (toLowerStr (title ++ " " ++ snippet)) = []
  · simp only [if_pos ((fallback_guard_iff _).mpr h), if_pos h]
  · have hguard : ¬ (((productCategories (toLowerStr (title ++ " " ++ snippet))).length == 0 ||
        (productCategories (toLowerStr (title ++ " " ++ snippet))).all
          (fun c => !(c.type == Category.product))) = true) :=
      fun hg => h ((fallback_guard_iff _).mp hg)
    simp only [if_neg hguard, if_neg h]

/-- In a list with pairwise-distinct keys, filtering on the key of a member
returns exactly that member. -/
theorem filter_eq_singleton_of_pairwise {α : Type} (f : α → String)
    (l : List α) (hpw : l.Pairwise (fun a b => f a ≠ f b))
    (p : α) (hp : p ∈ l) :
    l.filter (fun r => f r == f p) = [p] := by
  induction l with
  | nil => cases hp
  | cons a t ih =>
    rw [List.pairwise_cons] at hpw
    rcases List.mem_cons.mp hp with rfl | hp'
    · simp only [List.filter_cons, beq_self_eq_true, if_pos]
      have ht : t.filter (fun r => f r == f p) = [] := by
        rw [List.filter_eq_nil_iff]
        intro b hb
        simpa using fun hc => hpw.1 b hb hc.symm
      rw [ht]
    · have hne : f a ≠ f p := hpw.1 p hp'
      simp only [List.filter_cons]
      rw [if_neg (by simpa using hne)]
      exact ih hpw.2 hp'

/-- The static curated list has pairwise-distinct lowercased titles. -/
theorem mockData_titles_pairwise :
    mockData.Pairwise (fun a b => toLowerStr a.title ≠ toLowerStr b.title) := by
  decide

/-- The local curated search inherits the distinct-title property. -/
theorem performSearch_titles_pairwise (q : String) :
    (performSearch q).Pairwise
      (fun a b => toLowerStr a.title ≠ toLowerStr b.title) := by
  unfold performSearch getMockResults
  split
  · exact List.Pairwise.nil
  · exact mockData_titles_pairwise.sublist (List.filter_sublist _)

/-- The stable partition is sorted for the `searchAll` comparator and is a
permutation of its input: it is the stable sort the JavaScript `.sort`
call performs. -/
theorem sortByPredefined_sorted_and_perm (l : List SearchResult) :
    (sortByPredefined l).Pairwise (fun a b => predefinedCmp a b ≤ 0) ∧
    (sortByPredefined l).Perm l := by
  refine ⟨?_, List.filter_append_perm _ l⟩
  unfold sortByPredefined
  rw [List.pairwise_append]
  refine ⟨List.pairwise_of_forall_mem_list ?_,
          List.pairwise_of_forall_mem_list ?_, ?_⟩
  · intro a ha b hb
    have ha' := (List.mem_filter.mp ha).2
    have hb' := (List.mem_filter.mp hb).2
    simp_all [predefinedCmp]
  · intro a ha b hb
    have ha' := (List.mem_filter.mp ha).2
    have hb' := (List.mem_filter.mp hb).2
    simp_all [predefinedCmp]
  · intro a ha b hb
    have ha' := (List.mem_filter.mp ha).2
    have hb' := (List.mem_filter.mp hb).2
    simp_all [predefinedCmp]

/-- On a list without curated entries the stable partition is the
identity. -/
theorem sortByPredefined_eq_self {l : List SearchResult}
    (h : ∀ r ∈ l, r.isPredefined = false) : sortByPredefined l = l := by
  unfold sortByPredefined
  have h1 : l.filter (fun r => r.isPredefined) = [] := by
    rw [List.filter_eq_nil_iff]
    intro r hr
    simp [h r hr]
  have h2 : l.filter (fun r => !r.isPredefined) = l := by
    rw [List.filter_eq_self]
    intro r hr
    simp [h r hr]
  rw [h1, h2, List.nil_append]

/-- Membership in the stable partition is membership in the input. -/
theorem mem_of_mem_sortByPredefined {r : SearchResult}
    {l : List SearchResult} (h : r ∈ sortByPredefined l) : r ∈ l := by
  unfold sortByPredefined at h
  rcases List.mem_append.mp h with h | h
  · exact (List.mem_filter.mp h).1
  · exact (List.mem_filter.mp h).1

theorem searchDocumentation_not_predefined (q : String) (now : Nat) :
    ∀ r ∈ searchDocumentation q now, r.isPredefined = false := by
  intro r hr
  unfold searchDocumentation at hr
  simp only [List.mem_append] at hr
  rcases hr with ((hr | hr) | hr) | hr <;>
    first
      | (split at hr <;> simp_all)
      | simp_all

theorem searchCommunity_not_predefined (q : String) (now : Nat) :
    ∀ r ∈ searchCommunity q now, r.isPredefined = false := by
  intro r hr
  unfold searchCommunity at hr
  simp only [List.mem_append] at hr
  rcases hr with hr | hr <;>
    first
      | (split at hr <;> simp_all)
      | simp_all

theorem searchDeveloperSite_not_predefined (q : String) (now : Nat) :
    ∀ r ∈ searchDeveloperSite q now, r.isPredefined = false := by
  intro r hr
  unfold searchDeveloperSite at hr
  simp only [List.mem_append] at hr
  rcases hr with (hr | hr) | hr <;>
    first
      | (split at hr <;> simp_all)
      | simp_all

theorem searchBlog_not_predefined (q : String) (now : Nat) :
    ∀ r ∈ searchBlog q now, r.isPredefined = false := by
  intro r hr
  unfold searchBlog at hr
  simp only [List.mem_append] at hr
  rcases hr with hr | hr <;>
    first
      | (split at hr <;> simp_all)
      | simp_all

theorem searchYouTube_not_predefined (q : String) (now : Nat) :
    ∀ r ∈ searchYouTube q now, r.isPredefined = false := by
  intro r hr
  unfold searchYouTube at hr
  simp only [List.mem_append] at hr
  rcases hr with hr | hr <;>
    first
      | (split at hr <;> simp_all)
      | simp_all

theorem searchGitHub_not_predefined (gh : GithubOutcome) (now : Nat) :
    ∀ r ∈ searchGitHub gh now, r.isPredefined = false := by
  intro r hr
  unfold searchGitHub searchGitHubBody at hr
  cases gh with
  | ok items =>
    simp only at hr
    rw [List.mem_mapIdx] at hr
    obtain ⟨i, hi, hr⟩ := hr
    simp [← hr]
  | netError msg => simp at hr
  | badStatus status => simp at hr
  | parseError msg => simp at hr

theorem searchNowCreate_not_predefined (b : Bool) (q : String) (now : Nat) :
    ∀ r ∈ searchNowCreate b q now, r.isPredefined = false := by
  intro r hr
  unfold searchNowCreate at hr
  split at hr <;> simp_all <;> rcases hr with rfl | rfl <;> rfl

theorem searchTechNotes_not_predefined (b : Bool) (q : String) (now : Nat) :
    ∀ r ∈ searchTechNotes b q now, r.isPredefined = false := by
  intro r hr
  unfold searchTechNotes at hr
  split at hr <;> simp_all <;> rcases hr with rfl | rfl <;> rfl

/-- No adapter in the fan-out ever emits a curated entry. -/
theorem fanOut_not_predefined (gh : GithubOutcome) (b : Bool) (q : String)
    (now : Nat) :
    ∀ r ∈ (fanOut gh b q now).flatten, r.isPredefined = false := by
  intro r hr
  rw [List.mem_flatten] at hr
  obtain ⟨l, hl, hrl⟩ := hr
  unfold fanOut at hl
  simp only [List.mem_cons, List.not_mem_nil, or_false] at hl
  rcases hl with rfl | rfl | rfl | rfl | rfl | rfl | rfl | rfl
  · exact searchDocumentation_not_predefined q now r hrl
  · exact searchCommunity_not_predefined q now r hrl
  · exact searchDeveloperSite_not_predefined q now r hrl
  · exact searchBlog_not_predefined q now r hrl
  · exact searchYouTube_not_predefined q now r hrl
  · exact searchGitHub_not_predefined gh now r hrl
  · exact searchNowCreate_not_predefined b q now r hrl
  · exact searchTechNotes_not_predefined b q now r hrl

/-- Reading right after `cacheResults` under the same key finds the stored
entry. -/
theorem cacheGet_cacheResults_self (s : ServiceState) (key : String)
    (results : List SearchResult) (now : Nat) :
    cacheGet (cacheResults s key results now).cache key =
      some ⟨results, now⟩ := by
  simp [cacheResults, cacheGet]

/-- A successful `getCachedResults` read exposes the stored entry. -/
theorem getCachedResults_some {s : ServiceState} {key : String} {now : Nat}
    {rs : List SearchResult}
    (h : getCachedResults s key now = some rs) :
    ∃ e, cacheGet s.cache key = some e ∧ e.results = rs := by
  cases hget : cacheGet s.cache key with
  | none =>
    unfold getCachedResults at h
    rw [hget] at h
    cases h
  | some e =>
    have heq : getCachedResults s key now =
        if now - e.timestamp < cacheDuration then some e.results else none := by
      unfold getCachedResults
      rw [hget]
    rw [heq] at h
    split at h
    · exact ⟨e, rfl, by injection h⟩
    · cases h

/-- A successful cache read comes from an entry of the cache list. -/
theorem cacheGet_mem {m : List (String × CacheEntry)} {k : String}
    {v : CacheEntry} (h : cacheGet m k = some v) : (k, v) ∈ m := by
  induction m with
  | nil => simp [cacheGet] at h
  | cons kv t ih =>
    obtain ⟨k', v'⟩ := kv
    unfold cacheGet at h
    split at h
    · obtain rfl : v' = v := by injection h
      have : k' = k := by simp_all
      rw [this]
      exact List.mem_cons_self _ _
    · exact List.mem_cons_of_mem _ (ih h)

/-- `searchAll` on a whitespace-only query returns immediately. -/
theorem searchAll_empty (gh : GithubOutcome) (s : ServiceState) (q : String)
    (now : Nat) (hq : strIsEmpty (trimStr q) = true) :
    searchAll gh s q now = ([], s) := by
  unfold searchAll
  simp [hq]

/-- `searchAll` on a valid cache hit returns the cached list verbatim and
leaves the state untouched. -/
theorem searchAll_hit (gh : GithubOutcome) (s : ServiceState) (q : String)
    (now : Nat) (rs : List SearchResult)
    (hq : strIsEmpty (trimStr q) = false)
    (hhit : getCachedResults s (cacheKeyOf q s.userLoggedIn) now = some rs) :
    searchAll gh s q now = (rs, s) := by
  unfold searchAll
  simp [hq, hhit]

/-- `searchAll` on a cache miss computes the fan-out, sorts it, and writes
it through to the cache. -/
theorem searchAll_miss (gh : GithubOutcome) (s : ServiceState) (q : String)
    (now : Nat) (hq : strIsEmpty (trimStr q) = false)
    (hmiss : getCachedResults s (cacheKeyOf q s.userLoggedIn) now = none) :
    searchAll gh s q now =
      (sortByPredefined (fanOut gh s.userLoggedIn q now).flatten,
       cacheResults s (cacheKeyOf q s.userLoggedIn)
         (sortByPredefined (fanOut gh s.userLoggedIn q now).flatten) now) := by
  unfold searchAll
  simp [hq, hmiss]

/-- The categorizer always emits at least one Product-kind tag. -/
theorem extractCategories_product_exists (title snippet : String) (d : Bool) :
    ∃ c ∈ extractCategories title snippet d, c.type = Category.product := by
  rw [extractCategories_eq]
  by_cases h : productCategories (toLowerStr (title ++ " " ++ snippet)) = []
  · exact ⟨⟨Category.product, "Platform"⟩, by simp [h], rfl⟩
  · obtain ⟨c, hc⟩ := List.exists_mem_of_ne_nil _ h
    refine ⟨c, ?_, productCategories_types _ c hc⟩
    simp only [if_neg h, List.append_assoc, List.mem_append]
    exact Or.inl hc

/-- The Persona-kind tags of a categorizer result are exactly the single
tag chosen by the Persona priority chain. -/
theorem extractCategories_persona_filter (title snippet : String) (d : Bool) :
    (extractCategories title snippet d).filter
        (fun c => c.type == Category.persona) =
      [personaCategory d (toLowerStr (title ++ " " ++ snippet))] := by
  rw [extractCategories_eq]
  rw [List.filter_append, List.filter_append]
  have h1 : ((if productCategories (toLowerStr (title ++ " " ++ snippet)) = [] then
        productCategories (toLowerStr (title ++ " " ++ snippet)) ++
          [⟨Category.product, "Platform"⟩]
      else productCategories (toLowerStr (title ++ " " ++ snippet))).filter
        (fun c => c.type == Category.persona)) = [] := by
    rw [List.filter_eq_nil_iff]
    intro c hc
    split at hc
    · rcases List.mem_append.mp hc with hc | hc
      · simp [productCategories_types _ c hc]
      · simp only [List.mem_singleton] at hc
        simp [hc]
    · simp [productCategories_types _ c hc]
  have h2 : ([personaCategory d (toLowerStr (title ++ " " ++ snippet))].filter
      (fun c => c.type == Category.persona)) =
      [personaCategory d (toLowerStr (title ++ " " ++ snippet))] := by
    rw [List.filter_eq_self]
    intro c hc
    simp only [List.mem_singleton] at hc
    simp [hc, personaCategory_type]
  have h3 : ((useCaseCategories (toLowerStr (title ++ " " ++ snippet))).filter
      (fun c => c.type == Category.persona)) = [] := by
    rw [List.filter_eq_nil_iff]
    intro c hc
    simp [useCaseCategories_types _ c hc]
  rw [h1, h2, h3]
  rfl

/-- Sample external result used to witness the dedup law: its title is a
case variant of the curated "ServiceNow ITSM Best Practices" entry. -/
def c3ExternalSample : SearchResult :=
  { id := "ext-1"
  , title := "SERVICENOW ITSM BEST PRACTICES"
  , snippet := "duplicate from an adapter"
  , url := "https://example.org"
  , source := .github
  , categories := []
  , isPredefined := false }

/-- The curated entry of `mockData` whose title the sample external result
duplicates. -/
def curatedITSMBestPractices : SearchResult :=
  { id := "2"
  , title := "ServiceNow ITSM Best Practices"
  , snippet := "Optimize your ITSM implementation with proven best practices for incident management, problem management, and change management. Includes KPI recommendations."
  , url := "#"
  , source := .blog
  , categories :=
      [ ⟨.product, "ITSM"⟩, ⟨.persona, "Process Owner"⟩, ⟨.usecase, "Process Optimization"⟩ ]
  , isPredefined := false }

/-! ### Claim theorems -/

/-- C1, counterexample: the claim says `login("alice", "")` returns false
and leaves the authentication state unchanged; on the code, the service's
`login` returns true, authenticates, and assigns the fake session token
even for an empty password. -/
theorem claim_C1_counterexample :
    (login initState "alice" "").1 = true ∧
    (login initState "alice" "").2.userLoggedIn = true ∧
    (login initState "alice" "").2.sessionToken =
      some "fake-session-token" :=
  ⟨rfl, rfl, rfl⟩

/-- C1, amended: the service-level `login` performs no validation — for
every username and password (empty ones included) it returns true, sets the
flag, and assigns the fake token; empty-credential rejection happens only
in the UI login form (`LoginModal.handleSubmit`), which returns without
calling `login` and leaves the service state unchanged. -/
theorem claim_C1_amended (s : ServiceState) (username password : String) :
    (login s username password).1 = true ∧
    (login s username password).2.userLoggedIn = true ∧
    (login s username password).2.sessionToken = some "fake-session-token" ∧
    ((strIsEmpty username || strIsEmpty password) = true →
      handleSubmit s username password = (false, s)) := by
  refine ⟨rfl, rfl, rfl, fun h => ?_⟩
  simp [handleSubmit, h]

/-- Witness for C1 amended at the concrete empty-username input. -/
theorem claim_C1_amended_witness :
    (login initState "" "pw").1 = true ∧
    (login initState "" "pw").2.userLoggedIn = true ∧
    (login initState "" "pw").2.sessionToken = some "fake-session-token" ∧
    handleSubmit initState "" "pw" = (false, initState) := by
  have h := claim_C1_amended initState "" "pw"
  exact ⟨h.1, h.2.1, h.2.2.1, h.2.2.2 (by decide)⟩

/-- C2: `logout()` resets the service to the initial state — the flag goes
false, the token is dropped, and the entire cache is cleared — so no
subsequent cache read can succeed and the immediately following
`searchAll` recomputes from the adapters for any query. -/
theorem claim_C2_logout_clears_cache (s : ServiceState) (key : String)
    (now : Nat) (gh : GithubOutcome) (q : String) :
    logout s = initState ∧
    getCachedResults (logout s) key now = none ∧
    (searchAll gh (logout s) q now).1 =
      (if strIsEmpty (trimStr q) then []
       else sortByPredefined (fanOut gh false q now).flatten) := by
  refine ⟨rfl, rfl, ?_⟩
  by_cases hq : strIsEmpty (trimStr q) = true
  · rw [searchAll_empty gh _ q now hq]
    simp [hq]
  · have hq' : strIsEmpty (trimStr q) = false := by
      simpa using hq
    rw [searchAll_miss gh (logout s) q now hq' (by rfl)]
    simp only [hq', Bool.false_eq_true, if_false]
    rfl

/-- C3: when the curated local list and an adapter both produce a result
with the same case-insensitive title, the combined list delivered by
`useSearch` keeps exactly one entry with that title — the curated one —
and every adapter-derived survivor (all of which sit after the entire
curated prefix) has a different title. -/
theorem claim_C3_curated_dedup (q : String) (ext : List SearchResult)
    (p e : SearchResult)
    (hq : strIsEmpty (trimStr q) = false)
    (hp : p ∈ performSearch q) (he : e ∈ ext)
    (ht : toLowerStr e.title = toLowerStr p.title) :
    (combineResults (performSearch q) ext).filter
        (fun r => toLowerStr r.title == toLowerStr p.title) = [p] ∧
    ∃ tail, combineResults (performSearch q) ext = performSearch q ++ tail ∧
      ∀ r ∈ tail, toLowerStr r.title ≠ toLowerStr p.title := by
  have hpre : (performSearch q).filter
      (fun r => toLowerStr r.title == toLowerStr p.title) = [p] :=
    filter_eq_singleton_of_pairwise (fun r => toLowerStr r.title) _
      (performSearch_titles_pairwise q) p hp
  have htail : ∀ r ∈ ext.filter (fun extResult =>
      !((performSearch q).any fun preResult =>
        toLowerStr preResult.title == toLowerStr extResult.title)),
      toLowerStr r.title ≠ toLowerStr p.title := by
    intro r hr hcontra
    have h1 := (List.mem_filter.mp hr).2
    have h2 : ((performSearch q).any
        (fun preResult => toLowerStr preResult.title == toLowerStr r.title)) =
        true :=
      List.any_eq_true.mpr ⟨p, hp, by rw [hcontra]; exact beq_self_eq_true _⟩
    simp [h2] at h1
  constructor
  · show ((performSearch q ++ _).filter _) = [p]
    rw [List.filter_append, hpre]
    have hnil : ((ext.filter (fun extResult =>
        !((performSearch q).any fun preResult =>
          toLowerStr preResult.title == toLowerStr extResult.title))).filter
        (fun r => toLowerStr r.title == toLowerStr p.title)) = [] := by
      rw [List.filter_eq_nil_iff]
      intro r hr
      simpa using htail r hr
    rw [hnil]
    exact List.append_nil [p]
  · exact ⟨_, rfl, htail⟩

/-- Witness for C3 at the query "ITSM" with a case-variant duplicate from
an adapter. -/
theorem claim_C3_witness :
    (combineResults (performSearch "ITSM") [c3ExternalSample]).filter
        (fun r => toLowerStr r.title ==
          toLowerStr curatedITSMBestPractices.title) =
      [curatedITSMBestPractices] ∧
    ∃ tail, combineResults (performSearch "ITSM") [c3ExternalSample] =
        performSearch "ITSM" ++ tail ∧
      ∀ r ∈ tail,
        toLowerStr r.title ≠ toLowerStr curatedITSMBestPractices.title :=
  claim_C3_curated_dedup "ITSM" [c3ExternalSample]
    curatedITSMBestPractices c3ExternalSample
    (by decide) (by decide) (by decide) (by decide)

/-- C4, counterexample: for the query "best practices" the combined
response starts with a non-curated (`isPredefined = false`) local entry
and only then a curated (`isPredefined = true`) one, so curated results do
not all precede non-curated results in the delivered list. -/
theorem claim_C4_counterexample :
    ((combineResults (performSearch "best practices")
        ((searchAll (.ok []) initState "best practices" 0).1)).map
      (fun r => r.isPredefined)).take 2 = [false, true] := by
  decide

/-- C4, amended: the curated-first ordering is a property of the service's
internal `.sort` (whose output is sorted for the comparator and a
permutation of its input), and the combined UI response places the whole
local curated-list prefix before all adapter results; but within that
prefix entries keep the static list order regardless of their
`isPredefined` flag. -/
theorem claim_C4_amended :
    (∀ l : List SearchResult,
      (sortByPredefined l).Pairwise (fun a b => predefinedCmp a b ≤ 0) ∧
      (sortByPredefined l).Perm l) ∧
    (∀ pre ext : List SearchResult, ∃ tail,
      combineResults pre ext = pre ++ tail ∧ ∀ r ∈ tail, r ∈ ext) := by
  refine ⟨sortByPredefined_sorted_and_perm, ?_⟩
  intro pre ext
  exact ⟨_, rfl, fun r hr => (List.mem_filter.mp hr).1⟩

/-- Witness for C4 amended at a concrete list. -/
theorem claim_C4_amended_witness :
    (sortByPredefined [c3ExternalSample]).Pairwise
      (fun a b => predefinedCmp a b ≤ 0) ∧
    (sortByPredefined [c3ExternalSample]).Perm [c3ExternalSample] :=
  claim_C4_amended.1 [c3ExternalSample]

/-- C5, counterexample: an actual `searchAll` response contains a result
none of whose category tags is Product-kind (for example the generic
DevSite entry, which carries only a Persona tag). -/
theorem claim_C5_counterexample :
    ((searchAll (.ok []) initState "x" 0).1.any
      (fun r => r.categories.all
        (fun c => !(c.type == Category.product)))) = true := by
  decide

/-- C5, amended: the categorizer `extractCategories` does guarantee a
Product-kind tag (with the Platform fallback), and every curated entry
carries one; but adapter results use hard-coded category lists that do not
go through the categorizer, and several of them carry no Product tag. -/
theorem claim_C5_amended (title snippet : String) (d : Bool) :
    (∃ c ∈ extractCategories title snippet d,
      c.type = Category.product) ∧
    (∀ r ∈ mockData,
      r.categories.any (fun c => c.type == Category.product) = true) ∧
    ((searchDeveloperSite "x" 0).any
      (fun r => r.categories.all
        (fun c => !(c.type == Category.product))) = true) := by
  refine ⟨extractCategories_product_exists title snippet d, by decide, by decide⟩

/-- Witness for C5 amended at concrete strings. -/
theorem claim_C5_amended_witness :
    ∃ c ∈ extractCategories "hello" "world" false,
      c.type = Category.product :=
  (claim_C5_amended "hello" "world" false).1

/-- C6: after a fresh (cache-missing) `searchAll` for a non-empty query, a
second call within the 30-minute window — with any GitHub outcome, since
no adapter is consulted — returns the identical list verbatim and leaves
the state unchanged. -/
theorem claim_C6_cache_hit_equality (gh : GithubOutcome) (s : ServiceState)
    (q : String) (now1 now2 : Nat)
    (hq : strIsEmpty (trimStr q) = false)
    (hmiss : getCachedResults s (cacheKeyOf q s.userLoggedIn) now1 = none)
    (hwin : now2 - now1 < cacheDuration) (gh2 : GithubOutcome) :
    searchAll gh2 (searchAll gh s q now1).2 q now2 =
      ((searchAll gh s q now1).1, (searchAll gh s q now1).2) := by
  rw [searchAll_miss gh s q now1 hq hmiss]
  have hhit : getCachedResults
      (cacheResults s (cacheKeyOf q s.userLoggedIn)
        (sortByPredefined (fanOut gh s.userLoggedIn q now1).flatten) now1)
      (cacheKeyOf q s.userLoggedIn) now2 =
      some (sortByPredefined (fanOut gh s.userLoggedIn q now1).flatten) := by
    unfold getCachedResults
    rw [cacheGet_cacheResults_self]
    simp [hwin]
  exact searchAll_hit gh2 _ q now2 _ hq hhit

/-- Witness for C6 at the query "itsm" with times 0 and 5. -/
theorem claim_C6_witness :
    searchAll (.badStatus 404) (searchAll (.ok []) initState "itsm" 0).2
        "itsm" 5 =
      ((searchAll (.ok []) initState "itsm" 0).1,
       (searchAll (.ok []) initState "itsm" 0).2) :=
  claim_C6_cache_hit_equality (.ok []) initState "itsm" 0 5
    (by decide) (by decide) (by decide) (.badStatus 404)

/-- C7: each login-gated adapter is a two-state switch on the
authentication flag — logged out it returns exactly one teaser whose
snippet directs the user to log in; logged in it performs the full
simulated fetch and returns the richer two-entry set. -/
theorem claim_C7_gated_two_state (q : String) (now : Nat) :
    (searchNowCreate false q now).length = 1 ∧
    (searchTechNotes false q now).length = 1 ∧
    ((searchNowCreate false q now ++ searchTechNotes false q now).all
      (fun r => strIncludes r.snippet
        "Login required to view full content.")) = true ∧
    (searchNowCreate true q now).length = 2 ∧
    (searchTechNotes true q now).length = 2 := by
  have h1 := strIncludes_append_of_right
    "Access step-by-step implementation guides, methodologies, and templates related to \""
    q "\" in ServiceNow Now Create. Login required to view full content."
    "Login required to view full content." (by decide)
  have h2 := strIncludes_append_of_right
    "Access technical knowledge base articles related to \"" q
    "\" in ServiceNow. Login required to view full content."
    "Login required to view full content." (by decide)
  refine ⟨rfl, rfl, ?_, rfl, rfl⟩
  simp [searchNowCreate, searchTechNotes, h1, h2]

/-- C8: the categorizer is total — it always returns a non-empty tag set
with at least one Product-kind tag, appends the Platform fallback exactly
when no Product keyword group matched, and carries exactly one
Persona-kind tag chosen by the first-match priority chain (developer hint
or script/code/api/developer, then admin/configure, then
process/workflow, else All). -/
theorem claim_C8_categorizer (title snippet : String) (isDeveloper : Bool) :
    extractCategories title snippet isDeveloper ≠ [] ∧
    (∃ c ∈ extractCategories title snippet isDeveloper,
      c.type = Category.product) ∧
    ((extractCategories title snippet isDeveloper).filter
        (fun c => c.type == Category.persona)) =
      [⟨Category.persona,
        if isDeveloper ||
            strIncludes (toLowerStr (title ++ " " ++ snippet)) "script" ||
            strIncludes (toLowerStr (title ++ " " ++ snippet)) "code" ||
            strIncludes (toLowerStr (title ++ " " ++ snippet)) "api" ||
            strIncludes (toLowerStr (title ++ " " ++ snippet)) "developer" then
          "Developer"
        else if strIncludes (toLowerStr (title ++ " " ++ snippet)) "admin" ||
            strIncludes (toLowerStr (title ++ " " ++ snippet)) "configure" then
          "Administrator"
        else if strIncludes (toLowerStr (title ++ " " ++ snippet)) "process" ||
            strIncludes (toLowerStr (title ++ " " ++ snippet)) "workflow" then
          "Process Owner"
        else "All"⟩] ∧
    (productCategories (toLowerStr (title ++ " " ++ snippet)) = [] →
      ⟨Category.product, "Platform"⟩ ∈
        extractCategories title snippet isDeveloper) := by
  obtain ⟨c, hc, hcty⟩ := extractCategories_product_exists title snippet isDeveloper
  refine ⟨List.ne_nil_of_mem hc, ⟨c, hc, hcty⟩, ?_, ?_⟩
  · rw [extractCategories_persona_filter, personaCategory_eq]
  · intro h
    rw [extractCategories_eq]
    simp [h]

/-- Witness for C8 at concrete strings. -/
theorem claim_C8_witness :
    extractCategories "admin guide" "configure the platform" false ≠ [] ∧
    (∃ c ∈ extractCategories "admin guide" "configure the platform" false,
      c.type = Category.product) ∧
    ((extractCategories "admin guide" "configure the platform" false).filter
        (fun c => c.type == Category.persona)) =
      [⟨Category.persona,
        if false ||
            strIncludes (toLowerStr ("admin guide" ++ " " ++ "configure the platform")) "script" ||
            strIncludes (toLowerStr ("admin guide" ++ " " ++ "configure the platform")) "code" ||
            strIncludes (toLowerStr ("admin guide" ++ " " ++ "configure the platform")) "api" ||
            strIncludes (toLowerStr ("admin guide" ++ " " ++ "configure the platform")) "developer" then
          "Developer"
        else if strIncludes (toLowerStr ("admin guide" ++ " " ++ "configure the platform")) "admin" ||
            strIncludes (toLowerStr ("admin guide" ++ " " ++ "configure the platform")) "configure" then
          "Administrator"
        else if strIncludes (toLowerStr ("admin guide" ++ " " ++ "configure the platform")) "process" ||
            strIncludes (toLowerStr ("admin guide" ++ " " ++ "configure the platform")) "workflow" then
          "Process Owner"
        else "All"⟩] ∧
    (productCategories (toLowerStr ("admin guide" ++ " " ++ "configure the platform")) = [] →
      ⟨Category.product, "Platform"⟩ ∈
        extractCategories "admin guide" "configure the platform" false) :=
  claim_C8_categorizer "admin guide" "configure the platform" false

/-- C9: the GitHub adapter is fail-open — whenever the uncaught body
errors (network failure, bad HTTP status, or parse failure) the adapter
returns the empty list, and the whole fan-out is then identical to one
with an empty GitHub contribution, so a broken source never aborts the
aggregation. -/
theorem claim_C9_fail_open (gh : GithubOutcome) (now : Nat) (b : Bool)
    (q : String) :
    (∀ msg, searchGitHubBody gh now = Except.error msg →
      searchGitHub gh now = []) ∧
    (gh.isOk = false →
      (∃ msg, searchGitHubBody gh now = Except.error msg) ∧
      searchGitHub gh now = [] ∧
      fanOut gh b q now = fanOut (GithubOutcome.ok []) b q now) := by
  cases gh with
  | ok items =>
    refine ⟨fun msg h => ?_, fun h => by simp [GithubOutcome.isOk] at h⟩
    simp [searchGitHubBody] at h
  | netError m =>
    exact ⟨fun msg h => rfl, fun _ => ⟨⟨m, rfl⟩, rfl, rfl⟩⟩
  | badStatus st =>
    exact ⟨fun msg h => rfl,
      fun _ => ⟨⟨"Error fetching GitHub: " ++ toString st, rfl⟩, rfl, rfl⟩⟩
  | parseError m =>
    exact ⟨fun msg h => rfl, fun _ => ⟨⟨m, rfl⟩, rfl, rfl⟩⟩

/-- Witness for C9 at a concrete failing HTTP status. -/
theorem claim_C9_witness :
    (∃ msg, searchGitHubBody (GithubOutcome.badStatus 404) 0 =
      Except.error msg) ∧
    searchGitHub (GithubOutcome.badStatus 404) 0 = [] ∧
    fanOut (GithubOutcome.badStatus 404) false "x" 0 =
      fanOut (GithubOutcome.ok []) false "x" 0 :=
  (claim_C9_fail_open (GithubOutcome.badStatus 404) 0 false "x").2 rfl

/-- C10: no adapter ever emits a curated entry, so — starting from the
initial state and maintained by login, logout and searchAll — every
`searchAll` result list consists of `isPredefined = false` records, every
cached list does too, and the curated-first sort never reorders a fan-out
result. -/
theorem claim_C10_no_curated_from_adapters :
    CacheOk initState ∧
    (∀ s u p, CacheOk s → CacheOk (login s u p).2) ∧
    (∀ s, CacheOk s → CacheOk (logout s)) ∧
    (∀ gh s q now, CacheOk s →
      (∀ r ∈ (searchAll gh s q now).1, r.isPredefined = false) ∧
      CacheOk (searchAll gh s q now).2) ∧
    (∀ gh b q now,
      sortByPredefined ((fanOut gh b q now).flatten) =
        (fanOut gh b q now).flatten) := by
  refine ⟨?_, ?_, ?_, ?_, ?_⟩
  · intro kv hkv
    simp [initState] at hkv
  · intro s u p h
    exact h
  · intro s h kv hkv
    simp [logout, setAuth] at hkv
  · intro gh s q now h
    by_cases hq : strIsEmpty (trimStr q) = true
    · rw [searchAll_empty gh s q now hq]
      exact ⟨fun r hr => absurd hr (List.not_mem_nil r), h⟩
    · have hq' : strIsEmpty (trimStr q) = false := by simpa using hq
      cases hhit : getCachedResults s (cacheKeyOf q s.userLoggedIn) now with
      | some rs =>
        rw [searchAll_hit gh s q now rs hq' hhit]
        refine ⟨?_, h⟩
        intro r hr
        obtain ⟨e, hget, hres⟩ := getCachedResults_some hhit
        exact h _ (cacheGet_mem hget) r (by rw [hres]; exact hr)
      | none =>
        rw [searchAll_miss gh s q now hq' hhit]
        have hfresh : ∀ r ∈ sortByPredefined
            (fanOut gh s.userLoggedIn q now).flatten, r.isPredefined = false :=
          fun r hr => fanOut_not_predefined gh s.userLoggedIn q now r
            (mem_of_mem_sortByPredefined hr)
        refine ⟨hfresh, ?_⟩
        intro kv hkv
        rcases List.mem_cons.mp hkv with rfl | hkv'
        · exact hfresh
        · exact h kv hkv'
  · intro gh b q now
    exact sortByPredefined_eq_self (fanOut_not_predefined gh b q now)

/-- Witness for C10 at the initial state and a concrete query. -/
theorem claim_C10_witness :
    (∀ r ∈ (searchAll (GithubOutcome.ok []) initState "itsm" 0).1,
      r.isPredefined = false) ∧
    CacheOk (searchAll (GithubOutcome.ok []) initState "itsm" 0).2 :=
  claim_C10_no_curated_from_adapters.2.2.2.1 (GithubOutcome.ok [])
    initState "itsm" 0 claim_C10_no_curated_from_adapters.1

end SNB
